import Mathlib

/-
  A shallow embedding of the malaney/ecs repository: three Python source
  files that declare AWS CloudFormation resources through the troposphere
  templating library and serialize the resulting template.

    mystack/ecs_taskdefinition.py   standalone ECS task definition example
    stack/cluster.py                network / cluster / load balancer stack
    stack/services/application.py   application service stack

  The two stack modules attach their declarations to one shared template
  object imported from stack/template.py; the standalone example builds its
  own template and prints it.  Modules of the stack package that are not
  among the three source files (template, vpc, assets, certificates,
  repository, domain, database) are represented only by the logical names
  the three files reference.
-/

/-- Intrinsic CloudFormation values as the scripts build them: literal
strings, numbers and booleans, Ref and GetAtt references, Join
concatenation, FindInMap lookup, Base64 wrapping, plus JSON-like lists and
objects for nested resource properties. -/
inductive Val where
  | str (s : String)
  | num (n : Int)
  | boolV (b : Bool)
  | ref (name : String)
  | getAtt (res attr : String)
  | join (sep : String) (parts : List Val)
  | findInMap (mapName : String) (key : Val) (attr : String)
  | base64 (v : Val)
  | list (xs : List Val)
  | obj (fields : List (String × Val))

/-- Condition expressions; the sources only ever use Not and Equals. -/
inductive CondExpr where
  | isEqual (a b : Val)
  | isNot (c : CondExpr)

/-- A CloudFormation mapping: second-level keys to leaf values. -/
abbrev RegionMap := List (String × List (String × String))

/-- The mappings section of a template, keyed by mapping name. -/
abbrev Mappings := List (String × RegionMap)

/-- Two-level lookup in the mappings section, as FindInMap performs it. -/
def findMapValue (ms : Mappings) (name key attr : String) : Option String := do
  let m ← ms.find? (fun e => e.1 == name)
  let row ← m.2.find? (fun e => e.1 == key)
  let cell ← row.2.find? (fun e => e.1 == attr)
  pure cell.2

mutual
/-- Evaluate a value to a plain string under a reference resolution ρ
(mapping Ref targets, both pseudo parameters and template parameters, to
strings) and the template mappings; none when the value has no static
string form. -/
def evalVal (ms : Mappings) (ρ : String → Option String) : Val → Option String
  | .str s => some s
  | .num n => some (toString n)
  | .boolV b => some (toString b)
  | .ref n => ρ n
  | .getAtt _ _ => none
  | .join sep parts => (evalVals ms ρ parts).map (String.intercalate sep)
  | .findInMap m k a => do findMapValue ms m (← evalVal ms ρ k) a
  | .base64 _ => none
  | .list _ => none
  | .obj _ => none

/-- Evaluate a list of values left to right. -/
def evalVals (ms : Mappings) (ρ : String → Option String) : List Val → Option (List String)
  | [] => some []
  | v :: vs => do pure ((← evalVal ms ρ v) :: (← evalVals ms ρ vs))
end

/-- Evaluate a condition expression to a boolean. -/
def evalCond (ms : Mappings) (ρ : String → Option String) : CondExpr → Option Bool
  | .isEqual a b => do pure ((← evalVal ms ρ a) == (← evalVal ms ρ b))
  | .isNot c => do pure (!(← evalCond ms ρ c))

/-- A template parameter declaration. -/
structure Parameter where
  name : String
  ptype : String
  description : String := ""
  default : Option String := none
  allowedValues : List String := []

/-- A template output declaration. -/
structure OutputDecl where
  name : String
  description : String := ""
  value : Val

/-- A resource declaration: logical title, CloudFormation type, the
optional Condition and DependsOn and DeletionPolicy resource attributes,
metadata, and the property bag. -/
structure Resource where
  title : String
  rtype : String
  condition : Option String := none
  dependsOn : List String := []
  deletionPolicy : Option String := none
  metadata : Option Val := none
  props : List (String × Val) := []

/-- The template accumulator object of the templating library. -/
structure Template where
  parameters : List Parameter := []
  mappings : Mappings := []
  conditions : List (String × CondExpr) := []
  resources : List Resource := []
  outputs : List OutputDecl := []

/-- Look a property up in a resource property bag. -/
def Resource.prop (r : Resource) (k : String) : Option Val :=
  (r.props.find? (fun e => e.1 == k)).map (fun e => e.2)

/-- Look a resource up in a template by logical title. -/
def Template.resource? (t : Template) (n : String) : Option Resource :=
  t.resources.find? (fun r => r.title == n)

/-- Look a condition expression up in a template by condition name. -/
def Template.conditionExpr? (t : Template) (n : String) : Option CondExpr :=
  (t.conditions.find? (fun e => e.1 == n)).map (fun e => e.2)

/-- Whether CloudFormation instantiates a resource of the template: a
resource with no Condition attribute always exists, one with a Condition
exists exactly when the named condition evaluates to true, and naming a
condition the template never defines resolves to nothing. -/
def resourceInstantiated (t : Template) (ρ : String → Option String)
    (r : Resource) : Option Bool :=
  match r.condition with
  | none => some true
  | some c =>
    match t.conditionExpr? c with
    | none => none
    | some e => evalCond t.mappings ρ e

mutual
/-- All logical names a value refers to through Ref or GetAtt. -/
def valRefNames : Val → List String
  | .str _ => []
  | .num _ => []
  | .boolV _ => []
  | .ref n => [n]
  | .getAtt r _ => [r]
  | .join _ ps => valRefNamesOfList ps
  | .findInMap _ k _ => valRefNames k
  | .base64 v => valRefNames v
  | .list xs => valRefNamesOfList xs
  | .obj fs => valRefNamesOfFields fs

/-- Referred names of a list of values. -/
def valRefNamesOfList : List Val → List String
  | [] => []
  | v :: vs => valRefNames v ++ valRefNamesOfList vs

/-- Referred names of an object field list. -/
def valRefNamesOfFields : List (String × Val) → List String
  | [] => []
  | f :: fs => valRefNames f.2 ++ valRefNamesOfFields fs
end

/-- All logical names a resource declaration refers to: its DependsOn
attribute plus every Ref and GetAtt in its metadata and properties. -/
def Resource.refNames (r : Resource) : List String :=
  r.dependsOn
    ++ (match r.metadata with | none => [] | some v => valRefNames v)
    ++ valRefNamesOfFields r.props

namespace StackRefs

/-- Logical title of the VPC resource declared in stack/vpc.py; that module
is not among the three source files, so only the identity of the name
matters to the theorems below, never its value. -/
def vpc : String := "Vpc"

/-- Logical title of the first load balancer subnet from stack/vpc.py. -/
def loadbalancer_a_subnet : String := "LoadbalancerASubnet"

/-- Logical title of the second load balancer subnet from stack/vpc.py. -/
def loadbalancer_b_subnet : String := "LoadbalancerBSubnet"

/-- CIDR of the first load balancer subnet from stack/vpc.py; placeholder
literal, no theorem depends on it. -/
def loadbalancer_a_subnet_cidr : Val := .str "10.0.2.0/24"

/-- CIDR of the second load balancer subnet from stack/vpc.py; placeholder
literal, no theorem depends on it. -/
def loadbalancer_b_subnet_cidr : Val := .str "10.0.3.0/24"

/-- Logical title of the first container subnet from stack/vpc.py. -/
def container_a_subnet : String := "ContainerASubnet"

/-- Logical title of the second container subnet from stack/vpc.py. -/
def container_b_subnet : String := "ContainerBSubnet"

/-- Logical title of the assets bucket from stack/assets.py. -/
def assets_bucket : String := "AssetsBucket"

/-- Logical title of the assets distribution from stack/assets.py. -/
def distribution : String := "AssetsDistribution"

/-- Certificate value imported from stack/certificates.py. -/
def application_certificate : Val := .ref "ApplicationCertificate"

/-- Logical title of the docker repository from stack/repository.py. -/
def repository : String := "ApplicationRepository"

/-- Domain name value imported from stack/domain.py. -/
def domain_name : Val := .ref "DomainName"

/-- Logical title of the database instance from stack/database.py. -/
def db_instance : String := "PostgreSQL"

/-- Logical title of the database name parameter from stack/database.py. -/
def db_name : String := "DatabaseName"

/-- Logical title of the database user parameter from stack/database.py. -/
def db_user : String := "DatabaseUser"

/-- Logical title of the database password parameter from
stack/database.py. -/
def db_password : String := "DatabasePassword"

end StackRefs

namespace ClusterStack

/-- Ref of the ContainerInstanceType parameter (stack/cluster.py). -/
def container_instance_type : Val := .ref "ContainerInstanceType"

/-- Ref of the WebWorkerPort parameter (stack/cluster.py). -/
def web_worker_port : Val := .ref "WebWorkerPort"

/-- Ref of the MaxScale parameter (stack/cluster.py). -/
def max_container_instances : Val := .ref "MaxScale"

/-- Ref of the DesiredScale parameter (stack/cluster.py). -/
def desired_container_instances : Val := .ref "DesiredScale"

/-- The four parameters stack/cluster.py adds to the shared template, in
source order. -/
def parameters : List Parameter := [
  { name := "ContainerInstanceType", ptype := "String",
    description := "The container instance type",
    default := some "t2.micro",
    allowedValues := ["t2.micro", "t2.small", "t2.medium"] },
  { name := "WebWorkerPort", ptype := "Number",
    description := "Web worker container exposed port",
    default := some "8000" },
  { name := "MaxScale", ptype := "Number",
    description := "Maximum container instances count",
    default := some "3" },
  { name := "DesiredScale", ptype := "Number",
    description := "Desired container instances count",
    default := some "3" }]

/-- The static AMI-per-region mapping stack/cluster.py adds under the name
ECSRegionMap. -/
def ECSRegionMap : RegionMap := [
  ("us-east-1", [("AMI", "ami-eca289fb")]),
  ("us-east-2", [("AMI", "ami-446f3521")]),
  ("us-west-1", [("AMI", "ami-9fadf8ff")]),
  ("us-west-2", [("AMI", "ami-7abc111a")]),
  ("eu-west-1", [("AMI", "ami-a1491ad2")]),
  ("eu-central-1", [("AMI", "ami-54f5303b")]),
  ("ap-northeast-1", [("AMI", "ami-9cd57ffd")]),
  ("ap-southeast-1", [("AMI", "ami-a900a3ca")]),
  ("ap-southeast-2", [("AMI", "ami-5781be34")])]

/-- The application target group (stack/cluster.py). -/
def application_target_group : Resource := {
  title := "ApplicationTargetGroup",
  rtype := "AWS::ElasticLoadBalancingV2::TargetGroup",
  props := [
    ("VpcId", .ref StackRefs.vpc),
    ("Matcher", .obj [("HttpCode", .str "200-299")]),
    ("Port", .num 80),
    ("Protocol", .str "HTTP"),
    ("HealthCheckIntervalSeconds", .num 15),
    ("HealthCheckPath", .str "/health-check"),
    ("HealthCheckProtocol", .str "HTTP"),
    ("HealthCheckTimeoutSeconds", .num 5),
    ("HealthyThresholdCount", .num 2),
    ("UnhealthyThresholdCount", .num 8),
    ("TargetGroupAttributes", .list [
      .obj [("Key", .str "stickiness.enabled"), ("Value", .str "true")]])] }

/-- The load balancer security group (stack/cluster.py). -/
def load_balancer_security_group : Resource := {
  title := "LoadBalancerSecurityGroup",
  rtype := "AWS::EC2::SecurityGroup",
  props := [
    ("GroupDescription", .str "Web load balancer security group."),
    ("VpcId", .ref StackRefs.vpc),
    ("SecurityGroupIngress", .list [
      .obj [("IpProtocol", .str "tcp"), ("FromPort", .str "443"),
            ("ToPort", .str "443"), ("CidrIp", .str "0.0.0.0/0")]])] }

/-- The application load balancer (stack/cluster.py). -/
def application_load_balancer : Resource := {
  title := "ApplicationLoadBalancer",
  rtype := "AWS::ElasticLoadBalancingV2::LoadBalancer",
  props := [
    ("Subnets", .list [
      .ref StackRefs.loadbalancer_a_subnet,
      .ref StackRefs.loadbalancer_b_subnet]),
    ("SecurityGroups", .list [.ref "LoadBalancerSecurityGroup"])] }

/-- The HTTPS listener forwarding to the target group (stack/cluster.py). -/
def application_listener : Resource := {
  title := "ApplicationListener",
  rtype := "AWS::ElasticLoadBalancingV2::Listener",
  props := [
    ("Certificates", .list [
      .obj [("CertificateArn", StackRefs.application_certificate)]]),
    ("LoadBalancerArn", .ref "ApplicationLoadBalancer"),
    ("Protocol", .str "HTTPS"),
    ("Port", .num 443),
    ("DefaultActions", .list [
      .obj [("TargetGroupArn", .ref "ApplicationTargetGroup"),
            ("Type", .str "forward")]])] }

/-- The ECS cluster resource (stack/cluster.py). -/
def cluster : Resource := {
  title := "Cluster",
  rtype := "AWS::ECS::Cluster" }

/-- The ECS container instance role with its four inline policies
(stack/cluster.py); the ECR actions come from the awacs action constants. -/
def container_instance_role : Resource := {
  title := "ContainerInstanceRole",
  rtype := "AWS::IAM::Role",
  props := [
    ("AssumeRolePolicyDocument", .obj [
      ("Statement", .list [.obj [
        ("Effect", .str "Allow"),
        ("Principal", .obj [("Service", .list [.str "ec2.amazonaws.com"])]),
        ("Action", .list [.str "sts:AssumeRole"])]])]),
    ("Path", .str "/"),
    ("Policies", .list [
      .obj [
        ("PolicyName", .str "AssetsManagementPolicy"),
        ("PolicyDocument", .obj [
          ("Statement", .list [
            .obj [
              ("Effect", .str "Allow"),
              ("Action", .list [.str "s3:ListBucket"]),
              ("Resource", .join "" [
                .str "arn:aws:s3:::",
                .ref StackRefs.assets_bucket])],
            .obj [
              ("Effect", .str "Allow"),
              ("Action", .list [.str "s3:*"]),
              ("Resource", .join "" [
                .str "arn:aws:s3:::",
                .ref StackRefs.assets_bucket,
                .str "/*"])]])])],
      .obj [
        ("PolicyName", .str "ECSManagementPolicy"),
        ("PolicyDocument", .obj [
          ("Statement", .list [.obj [
            ("Effect", .str "Allow"),
            ("Action", .list [.str "ecs:*", .str "elasticloadbalancing:*"]),
            ("Resource", .str "*")]])])],
      .obj [
        ("PolicyName", .str "ECRManagementPolicy"),
        ("PolicyDocument", .obj [
          ("Statement", .list [.obj [
            ("Effect", .str "Allow"),
            ("Action", .list [
              .str "ecr:GetAuthorizationToken",
              .str "ecr:GetDownloadUrlForLayer",
              .str "ecr:BatchGetImage",
              .str "ecr:BatchCheckLayerAvailability"]),
            ("Resource", .str "*")]])])],
      .obj [
        ("PolicyName", .str "LoggingPolicy"),
        ("PolicyDocument", .obj [
          ("Statement", .list [.obj [
            ("Effect", .str "Allow"),
            ("Action", .list [.str "logs:Create*", .str "logs:PutLogEvents"]),
            ("Resource", .str "arn:aws:logs:*:*:*")]])])]])] }

/-- The instance profile wrapping the container instance role
(stack/cluster.py). -/
def container_instance_profile : Resource := {
  title := "ContainerInstanceProfile",
  rtype := "AWS::IAM::InstanceProfile",
  props := [
    ("Path", .str "/"),
    ("Roles", .list [.ref "ContainerInstanceRole"])] }

/-- The container security group admitting the web worker port from both
load balancer subnets (stack/cluster.py). -/
def container_security_group : Resource := {
  title := "ContainerSecurityGroup",
  rtype := "AWS::EC2::SecurityGroup",
  props := [
    ("GroupDescription", .str "Container security group."),
    ("VpcId", .ref StackRefs.vpc),
    ("SecurityGroupIngress", .list [
      .obj [("IpProtocol", .str "tcp"), ("FromPort", web_worker_port),
            ("ToPort", web_worker_port),
            ("CidrIp", StackRefs.loadbalancer_a_subnet_cidr)],
      .obj [("IpProtocol", .str "tcp"), ("FromPort", web_worker_port),
            ("ToPort", web_worker_port),
            ("CidrIp", StackRefs.loadbalancer_b_subnet_cidr)]])] }

/-- Python variable holding the launch configuration title
(stack/cluster.py). -/
def container_instance_configuration_name : String :=
  "ContainerLaunchConfiguration"

/-- Python variable holding the autoscaling group title
(stack/cluster.py). -/
def autoscaling_group_name : String := "AutoScalingGroup"

/-- The cfn-init metadata of the launch configuration: the cluster
registration command, the two cfn-hup files and the cfn-hup service
(stack/cluster.py). -/
def container_instance_metadata : Val := .obj [
  ("AWS::CloudFormation::Init", .obj [
    ("config", .obj [
      ("commands", .obj [
        ("register_cluster", .obj [("command", .join "" [
          .str "#!/bin/bash\n",
          .str "echo ECS_CLUSTER=",
          .ref "Cluster",
          .str " >> /etc/ecs/ecs.config\n",
          .str "echo \x27ECS_AVAILABLE_LOGGING_DRIVERS=",
          .str "[\"json-file\",\"awslogs\"]\x27",
          .str " >> /etc/ecs/ecs.config\n"])])]),
      ("files", .obj [
        ("/etc/cfn/cfn-hup.conf", .obj [
          ("content", .join "" [
            .str "[main]\n",
            .str "stack=",
            .ref "AWS::StackId",
            .str "\n",
            .str "region=",
            .ref "AWS::Region",
            .str "\n"]),
          ("mode", .str "000400"),
          ("owner", .str "root"),
          ("group", .str "root")]),
        ("/etc/cfn/hooks.d/cfn-auto-reloader.conf", .obj [
          ("content", .join "" [
            .str "[cfn-auto-reloader-hook]\n",
            .str "triggers=post.update\n",
            .str ("path=Resources." ++ container_instance_configuration_name
              ++ "."),
            .str "Metadata.AWS::CloudFormation::Init\n",
            .str "action=/opt/aws/bin/cfn-init -v ",
            .str "         --stack ",
            .ref "AWS::StackName",
            .str ("         --resource "
              ++ container_instance_configuration_name),
            .str "         --region ",
            .ref "AWS::Region",
            .str "\n",
            .str "runas=root\n"])])]),
      ("services", .obj [
        ("sysvinit", .obj [
          ("cfn-hup", .obj [
            ("enabled", .boolV true),
            ("ensureRunning", .boolV true),
            ("files", .list [
              .str "/etc/cfn/cfn-hup.conf",
              .str "/etc/cfn/hooks.d/cfn-auto-reloader.conf"])])])])])])]

/-- The container launch configuration (stack/cluster.py): its ImageId is
the FindInMap lookup of the deployment region in ECSRegionMap. -/
def container_instance_configuration : Resource := {
  title := container_instance_configuration_name,
  rtype := "AWS::AutoScaling::LaunchConfiguration",
  metadata := some container_instance_metadata,
  props := [
    ("SecurityGroups", .list [.ref "ContainerSecurityGroup"]),
    ("InstanceType", container_instance_type),
    ("ImageId", .findInMap "ECSRegionMap" (.ref "AWS::Region") "AMI"),
    ("IamInstanceProfile", .ref "ContainerInstanceProfile"),
    ("UserData", .base64 (.join "" [
      .str "#!/bin/bash -xe\n",
      .str "yum install -y aws-cfn-bootstrap\n",
      .str "/opt/aws/bin/cfn-init -v ",
      .str "         --stack ", .ref "AWS::StackName",
      .str ("         --resource " ++ container_instance_configuration_name
        ++ " "),
      .str "         --region ", .ref "AWS::Region", .str "\n",
      .str "/opt/aws/bin/cfn-signal -e $? ",
      .str "         --stack ", .ref "AWS::StackName",
      .str ("         --resource " ++ container_instance_configuration_name
        ++ " "),
      .str "         --region ", .ref "AWS::Region", .str "\n"]))] }

/-- The autoscaling group (stack/cluster.py): MinSize and DesiredCapacity
both carry the DesiredScale reference, MaxSize carries MaxScale. -/
def autoscaling_group : Resource := {
  title := autoscaling_group_name,
  rtype := "AWS::AutoScaling::AutoScalingGroup",
  props := [
    ("VPCZoneIdentifier", .list [
      .ref StackRefs.container_a_subnet,
      .ref StackRefs.container_b_subnet]),
    ("MinSize", desired_container_instances),
    ("MaxSize", max_container_instances),
    ("DesiredCapacity", desired_container_instances),
    ("LaunchConfigurationName", .ref container_instance_configuration_name),
    ("HealthCheckType", .str "EC2"),
    ("HealthCheckGracePeriod", .num 300)] }

/-- The (unused by other declarations) app service role at the end of
stack/cluster.py. -/
def app_service_role : Resource := {
  title := "AppServiceRole",
  rtype := "AWS::IAM::Role",
  props := [
    ("AssumeRolePolicyDocument", .obj [
      ("Statement", .list [.obj [
        ("Effect", .str "Allow"),
        ("Principal", .obj [("Service", .list [.str "ecs.amazonaws.com"])]),
        ("Action", .list [.str "sts:AssumeRole"])]])]),
    ("Path", .str "/"),
    ("Policies", .list [
      .obj [
        ("PolicyName", .str "WebServicePolicy"),
        ("PolicyDocument", .obj [
          ("Statement", .list [.obj [
            ("Effect", .str "Allow"),
            ("Action", .list [
              .str "elasticloadbalancing:Describe*",
              .str "elasticloadbalancing:DeregisterInstancesFromLoadBalancer",
              .str "elasticloadbalancing:RegisterInstancesWithLoadBalancer",
              .str "ec2:Describe*",
              .str "ec2:AuthorizeSecurityGroupIngress"]),
            ("Resource", .str "*")]])])]])] }

/-- All resources stack/cluster.py attaches to the shared template, in
source order. -/
def resources : List Resource := [
  application_target_group,
  load_balancer_security_group,
  application_load_balancer,
  application_listener,
  cluster,
  container_instance_role,
  container_instance_profile,
  container_security_group,
  container_instance_configuration,
  autoscaling_group,
  app_service_role]

/-- The single output stack/cluster.py adds: the load balancer DNS name. -/
def outputs : List OutputDecl := [
  { name := "LoadBalancerDNSName",
    description := "Loadbalancer DNS",
    value := .getAtt "ApplicationLoadBalancer" "DNSName" }]

end ClusterStack

namespace Application

/-- Ref of the WebAppRevision parameter
(stack/services/application.py). -/
def application_revision : Val := .ref "WebAppRevision"

/-- Ref of the SecretKey parameter (stack/services/application.py). -/
def secret_key : Val := .ref "SecretKey"

/-- Ref of the WebWorkerCPU parameter (stack/services/application.py). -/
def web_worker_cpu : Val := .ref "WebWorkerCPU"

/-- Ref of the WebWorkerMemory parameter
(stack/services/application.py). -/
def web_worker_memory : Val := .ref "WebWorkerMemory"

/-- Ref of the WebWorkerDesiredCount parameter
(stack/services/application.py). -/
def web_worker_desired_count : Val := .ref "WebWorkerDesiredCount"

/-- The five parameters stack/services/application.py adds to the shared
template, in source order. -/
def parameters : List Parameter := [
  { name := "WebAppRevision", ptype := "String",
    description := "An optional docker app revision to deploy",
    default := some "" },
  { name := "SecretKey", ptype := "String",
    description := "Application secret key" },
  { name := "WebWorkerCPU", ptype := "Number",
    description := "Web worker CPU units", default := some "256" },
  { name := "WebWorkerMemory", ptype := "Number",
    description := "Web worker memory", default := some "500" },
  { name := "WebWorkerDesiredCount", ptype := "Number",
    description := "Web worker task instance count", default := some "3" }]

/-- Python variable holding the condition name
(stack/services/application.py). -/
def deploy_condition : String := "Deploy"

/-- The single condition stack/services/application.py adds: deploy exactly
when the WebAppRevision parameter is not the empty string. -/
def conditions : List (String × CondExpr) := [
  (deploy_condition, .isNot (.isEqual application_revision (.str "")))]

/-- The docker image value (stack/services/application.py): account id,
region, repository and revision joined with ECR URL pieces. -/
def image : Val := .join "" [
  .ref "AWS::AccountId",
  .str ".dkr.ecr.",
  .ref "AWS::Region",
  .str ".amazonaws.com/",
  .ref StackRefs.repository,
  .str ":",
  application_revision]

/-- The web application log group (stack/services/application.py). -/
def web_log_group : Resource := {
  title := "WebLogs",
  rtype := "AWS::Logs::LogGroup",
  deletionPolicy := some "Retain",
  props := [("RetentionInDays", .num 365)] }

/-- The awslogs log configuration: the module builds this value twice, once
into an unused variable and once inline in the container definition
(stack/services/application.py). -/
def log_configuration : Val := .obj [
  ("LogDriver", .str "awslogs"),
  ("Options", .obj [
    ("awslogs-group", .ref "WebLogs"),
    ("awslogs-region", .ref "AWS::Region")])]

/-- The port mappings of the web worker container
(stack/services/application.py). -/
def web_worker_port_mappings : Val := .list [
  .obj [("HostPort", .num 0),
        ("ContainerPort", ClusterStack.web_worker_port)]]

/-- The environment entries of the web worker container
(stack/services/application.py). -/
def web_worker_environment : Val := .list [
  .obj [("Name", .str "AWS_STORAGE_BUCKET_NAME"),
        ("Value", .ref StackRefs.assets_bucket)],
  .obj [("Name", .str "CDN_DOMAIN_NAME"),
        ("Value", .getAtt StackRefs.distribution "DomainName")],
  .obj [("Name", .str "DOMAIN_NAME"), ("Value", StackRefs.domain_name)],
  .obj [("Name", .str "PORT"), ("Value", ClusterStack.web_worker_port)],
  .obj [("Name", .str "SECRET_KEY"), ("Value", secret_key)],
  .obj [("Name", .str "DATABASE_URL"),
        ("Value", .join "" [
          .str "postgres://",
          .ref StackRefs.db_user,
          .str ":",
          .ref StackRefs.db_password,
          .str "@",
          .getAtt StackRefs.db_instance "Endpoint.Address",
          .str "/",
          .ref StackRefs.db_name])]]

/-- The web worker container definition (stack/services/application.py). -/
def web_worker_container : Val := .obj [
  ("Name", .str "WebWorker"),
  ("Cpu", web_worker_cpu),
  ("Memory", web_worker_memory),
  ("Essential", .boolV true),
  ("Image", image),
  ("PortMappings", web_worker_port_mappings),
  ("LogConfiguration", log_configuration),
  ("Environment", web_worker_environment)]

/-- The ECS task definition carrying the Deploy condition
(stack/services/application.py). -/
def web_task_definition : Resource := {
  title := "WebTask",
  rtype := "AWS::ECS::TaskDefinition",
  condition := some deploy_condition,
  props := [("ContainerDefinitions", .list [web_worker_container])] }

/-- The application service role (stack/services/application.py). -/
def application_service_role : Resource := {
  title := "ApplicationServiceRole",
  rtype := "AWS::IAM::Role",
  props := [
    ("AssumeRolePolicyDocument", .obj [
      ("Statement", .list [.obj [
        ("Effect", .str "Allow"),
        ("Principal", .obj [("Service", .list [.str "ecs.amazonaws.com"])]),
        ("Action", .list [.str "sts:AssumeRole"])]])]),
    ("Path", .str "/"),
    ("Policies", .list [
      .obj [
        ("PolicyName", .str "WebServicePolicy"),
        ("PolicyDocument", .obj [
          ("Statement", .list [.obj [
            ("Effect", .str "Allow"),
            ("Action", .list [
              .str "elasticloadbalancing:Describe*",
              .str "elasticloadbalancing:RegisterTargets",
              .str "elasticloadbalancing:DeregisterTargets",
              .str "elasticloadbalancing:DeregisterInstancesFromLoadBalancer",
              .str "elasticloadbalancing:RegisterInstancesWithLoadBalancer",
              .str "ec2:Describe*",
              .str "ec2:AuthorizeSecurityGroupIngress"]),
            ("Resource", .str "*")]])])]])] }

/-- The ECS service carrying the Deploy condition and referencing the
cluster, the autoscaling group, the listener, the target group and the task
definition (stack/services/application.py). -/
def application_service : Resource := {
  title := "ApplicationService",
  rtype := "AWS::ECS::Service",
  condition := some deploy_condition,
  dependsOn := [ClusterStack.autoscaling_group_name,
    ClusterStack.application_listener.title],
  props := [
    ("Cluster", .ref ClusterStack.cluster.title),
    ("DeploymentConfiguration", .obj [
      ("MaximumPercent", .num 135),
      ("MinimumHealthyPercent", .num 30)]),
    ("DesiredCount", web_worker_desired_count),
    ("LoadBalancers", .list [
      .obj [("ContainerName", .str "WebWorker"),
            ("ContainerPort", ClusterStack.web_worker_port),
            ("TargetGroupArn", .ref ClusterStack.application_target_group.title)]]),
    ("TaskDefinition", .ref web_task_definition.title),
    ("Role", .ref "ApplicationServiceRole")] }

/-- All resources stack/services/application.py attaches to the shared
template, in source order. -/
def resources : List Resource := [
  web_log_group,
  web_task_definition,
  application_service_role,
  application_service]

/-- The single output stack/services/application.py adds: the log group
ARN. -/
def outputs : List OutputDecl := [
  { name := "WebLogsGroup",
    description := "Web application log group",
    value := .getAtt "WebLogs" "Arn" }]

end Application

namespace MyStack

/-- Python variable holding the fixed revision of the standalone example
(mystack/ecs_taskdefinition.py). -/
def app_revision : String := "latest"

/-- Python variable holding the repository string of the standalone
example; it is a plain string, and the script wraps it in Ref
(mystack/ecs_taskdefinition.py). -/
def repository : String := "nick"

/-- The docker image value of the standalone example: the same ECR URL
join, with Ref of the plain string repository and the fixed revision
(mystack/ecs_taskdefinition.py). -/
def image : Val := .join "" [
  .ref "AWS::AccountId",
  .str ".dkr.ecr.",
  .ref "AWS::Region",
  .str ".amazonaws.com/",
  .ref repository,
  .str ":",
  .str app_revision]

/-- The port mappings of the standalone example container
(mystack/ecs_taskdefinition.py). -/
def web_worker_port_mappings : Val := .list [
  .obj [("ContainerPort", .num 10), ("HostPort", .num 8000)]]

/-- The environment entries of the standalone example container
(mystack/ecs_taskdefinition.py). -/
def web_worker_environment : Val := .list [
  .obj [("Name", .str "AWS_STORAGE_BUCKET_NAME"), ("Value", .str "blah")],
  .obj [("Name", .str "CDN_DOMAIN_NAME"), ("Value", .str "DomainName")]]

/-- The container definition of the standalone example
(mystack/ecs_taskdefinition.py). -/
def web_worker_container : Val := .obj [
  ("Name", .str "WebWorker"),
  ("Cpu", .num 8),
  ("Memory", .num 2048),
  ("Essential", .boolV true),
  ("Image", image),
  ("PortMappings", web_worker_port_mappings),
  ("Environment", web_worker_environment)]

/-- The task definition of the standalone example, carrying the literal
Condition string foo (mystack/ecs_taskdefinition.py). -/
def web_task_definition : Resource := {
  title := "WebTask",
  rtype := "AWS::ECS::TaskDefinition",
  condition := some "foo",
  props := [("ContainerDefinitions", .list [web_worker_container])] }

end MyStack

/-- The shared template of the stack package (stack/template.py holds the
accumulator; stack/cluster.py and then stack/services/application.py attach
their declarations to it in import order).  Declarations of stack modules
that are not among the three source files are not represented. -/
def stackTemplate : Template := {
  parameters := ClusterStack.parameters ++ Application.parameters,
  mappings := [("ECSRegionMap", ClusterStack.ECSRegionMap)],
  conditions := Application.conditions,
  resources := ClusterStack.resources ++ Application.resources,
  outputs := ClusterStack.outputs ++ Application.outputs }

/-- The private template of the standalone example
(mystack/ecs_taskdefinition.py): one resource, no parameters, no mappings,
no conditions, no outputs. -/
def mystackTemplate : Template := {
  resources := [MyStack.web_task_definition] }

/-- Serialize a parameter declaration to its document fragment. -/
def Parameter.toVal (p : Parameter) : Val := .obj (
  [("Type", .str p.ptype)]
  ++ (if p.description == "" then []
      else [("Description", .str p.description)])
  ++ (match p.default with | none => [] | some d => [("Default", .str d)])
  ++ (if p.allowedValues.isEmpty then []
      else [("AllowedValues", .list (p.allowedValues.map Val.str))]))

/-- Serialize a condition expression to its Fn document fragment. -/
def CondExpr.toVal : CondExpr → Val
  | .isEqual a b => .obj [("Fn::Equals", .list [a, b])]
  | .isNot c => .obj [("Fn::Not", .list [c.toVal])]

/-- Serialize a resource declaration to its document fragment. -/
def Resource.toVal (r : Resource) : Val := .obj (
  [("Type", .str r.rtype)]
  ++ (match r.condition with | none => [] | some c => [("Condition", .str c)])
  ++ (if r.dependsOn.isEmpty then []
      else [("DependsOn", .list (r.dependsOn.map Val.str))])
  ++ (match r.deletionPolicy with
      | none => [] | some d => [("DeletionPolicy", .str d)])
  ++ (match r.metadata with | none => [] | some m => [("Metadata", m)])
  ++ [("Properties", .obj r.props)])

/-- Serialize a whole template to the document the templating library
emits: the nonempty sections in canonical order, the resource section
always present. -/
def Template.toDocument (t : Template) : Val := .obj (
  (if t.parameters.isEmpty then []
   else [("Parameters",
     .obj (t.parameters.map (fun p => (p.name, p.toVal))))])
  ++ (if t.mappings.isEmpty then []
      else [("Mappings", .obj (t.mappings.map (fun m => (m.1,
        .obj (m.2.map (fun row => (row.1,
          .obj (row.2.map (fun cell => (cell.1, .str cell.2))))))))))])
  ++ (if t.conditions.isEmpty then []
      else [("Conditions",
        .obj (t.conditions.map (fun c => (c.1, c.2.toVal))))])
  ++ [("Resources", .obj (t.resources.map (fun r => (r.title, r.toVal))))]
  ++ (if t.outputs.isEmpty then []
      else [("Outputs", .obj (t.outputs.map (fun o => (o.name, .obj (
        (if o.description == "" then []
         else [("Description", .str o.description)])
        ++ [("Value", o.value)])))))]))

/-- The logical titles the Resources section of a serialized document
lists. -/
def documentResourceTitles (d : Val) : List String :=
  match d with
  | .obj fields =>
    match (fields.find? (fun e => e.1 == "Resources")).map (fun e => e.2) with
    | some (Val.obj rs) => rs.map (fun e => e.1)
    | _ => []
  | _ => []

/-- The standard output of mystack/ecs_taskdefinition.py: the single
document its final print statement emits. -/
def mystackScriptOutput : List Val := [mystackTemplate.toDocument]

/-- Modelled from the spec: the entry point of the stack package is not
among the three source files; per the spec it builds the in-memory object
graph, calls the templating library and prints the resulting document of
the shared template to standard output. -/
def stackScriptOutput : List Val := [stackTemplate.toDocument]

/-- The two template accumulator objects the repository constructs. -/
inductive TemplateId where
  | mystackT
  | stackT
deriving DecidableEq

/-- Declarations of the standalone example paired with the template object
they are attached to. -/
def mystackAttachments : List (String × TemplateId) :=
  mystackTemplate.resources.map (fun r => (r.title, TemplateId.mystackT))

/-- Declarations of the stack package paired with the template object they
are attached to: every parameter, mapping, condition, resource and output
goes to the one shared stack template. -/
def stackAttachments : List (String × TemplateId) :=
  stackTemplate.parameters.map (fun p => (p.name, TemplateId.stackT))
  ++ stackTemplate.mappings.map (fun m => (m.1, TemplateId.stackT))
  ++ stackTemplate.conditions.map (fun c => (c.1, TemplateId.stackT))
  ++ stackTemplate.resources.map (fun r => (r.title, TemplateId.stackT))
  ++ stackTemplate.outputs.map (fun o => (o.name, TemplateId.stackT))

/-- Every declaration any of the three source files attaches to a
template, paired with the template object receiving it. -/
def attachments : List (String × TemplateId) :=
  mystackAttachments ++ stackAttachments

namespace Tropo

/-- Property bag for building a container definition; required properties
may be absent here to express their omission. -/
structure ContainerDefinitionProps where
  name : Option String := none
  image : Option Val := none
  cpu : Option Val := none
  memory : Option Val := none
  essential : Option Bool := none
  portMappings : Option Val := none
  logConfiguration : Option Val := none
  environment : Option Val := none

/-- Modelled from the spec: the external templating library (whose sources
are not part of this repository) raises at construction time when a
required resource property is missing; for a container definition the
required properties are Name and Image. -/
def mkContainerDefinition (p : ContainerDefinitionProps) : Except String Val :=
  match p.name, p.image with
  | none, _ => .error "ContainerDefinition: required property Name absent"
  | some _, none => .error "ContainerDefinition: required property Image absent"
  | some n, some i => .ok (.obj (
      [("Name", .str n)]
      ++ (match p.cpu with | none => [] | some v => [("Cpu", v)])
      ++ (match p.memory with | none => [] | some v => [("Memory", v)])
      ++ (match p.essential with
          | none => [] | some b => [("Essential", .boolV b)])
      ++ [("Image", i)]
      ++ (match p.portMappings with
          | none => [] | some v => [("PortMappings", v)])
      ++ (match p.logConfiguration with
          | none => [] | some v => [("LogConfiguration", v)])
      ++ (match p.environment with
          | none => [] | some v => [("Environment", v)])))

/-- Modelled from the spec: a task definition requires its
ContainerDefinitions property; omitting it raises before any template is
serialized. -/
def mkTaskDefinition (title : String) (condition : Option String)
    (containerDefinitions : Option (List Val)) : Except String Resource :=
  match containerDefinitions with
  | none =>
    .error "TaskDefinition: required property ContainerDefinitions absent"
  | some cds => .ok {
      title := title,
      rtype := "AWS::ECS::TaskDefinition",
      condition := condition,
      props := [("ContainerDefinitions", .list cds)] }

/-- Whether a checked construction succeeded. -/
def succeeded : Except String α → Bool
  | .ok _ => true
  | .error _ => false

end Tropo

/-- The container definition construction stack/services/application.py
performs, through the checked constructor. -/
def applicationContainerBuild : Except String Val :=
  Tropo.mkContainerDefinition {
    name := some "WebWorker",
    image := some Application.image,
    cpu := some Application.web_worker_cpu,
    memory := some Application.web_worker_memory,
    essential := some true,
    portMappings := some Application.web_worker_port_mappings,
    logConfiguration := some Application.log_configuration,
    environment := some Application.web_worker_environment }

/-- The task definition construction stack/services/application.py
performs, through the checked constructor. -/
def applicationTaskBuild : Except String Resource :=
  Tropo.mkTaskDefinition "WebTask" (some Application.deploy_condition)
    (some [Application.web_worker_container])

/-- The container definition construction mystack/ecs_taskdefinition.py
performs, through the checked constructor. -/
def mystackContainerBuild : Except String Val :=
  Tropo.mkContainerDefinition {
    name := some "WebWorker",
    image := some MyStack.image,
    cpu := some (.num 8),
    memory := some (.num 2048),
    essential := some true,
    portMappings := some MyStack.web_worker_port_mappings,
    environment := some MyStack.web_worker_environment }

/-- The task definition construction mystack/ecs_taskdefinition.py
performs, through the checked constructor. -/
def mystackTaskBuild : Except String Resource :=
  Tropo.mkTaskDefinition "WebTask" (some "foo")
    (some [MyStack.web_worker_container])

/-- The five cluster names stack/services/application.py imports from
stack/cluster.py: the autoscaling group name, the listener, the cluster,
the target group and the web worker port parameter. -/
def applicationClusterImports : List String := [
  ClusterStack.autoscaling_group_name,
  ClusterStack.application_listener.title,
  ClusterStack.cluster.title,
  ClusterStack.application_target_group.title,
  "WebWorkerPort"]

/-- Logical names stack/cluster.py declares: its resource titles and its
parameter names. -/
def clusterDeclaredNames : List String :=
  ClusterStack.resources.map (fun r => r.title)
  ++ ClusterStack.parameters.map (fun p => p.name)

/-- Logical names stack/services/application.py declares. -/
def applicationDeclaredNames : List String :=
  Application.resources.map (fun r => r.title)
  ++ Application.parameters.map (fun p => p.name)

/-- Every name the application module refers to, over all its resources and
outputs. -/
def applicationReferencedNames : List String :=
  (Application.resources.map Resource.refNames).flatten
  ++ (Application.outputs.map (fun o => valRefNames o.value)).flatten

/-- Every name the cluster module refers to, over all its resources and
outputs. -/
def clusterReferencedNames : List String :=
  (ClusterStack.resources.map Resource.refNames).flatten
  ++ (ClusterStack.outputs.map (fun o => valRefNames o.value)).flatten

/-- Reference resolution for the application stack image: the two pseudo
parameters, the repository and the revision parameter receive concrete
values. -/
def imageEnv (acct region repo rev : String) : String → Option String :=
  fun n =>
    if n = "AWS::AccountId" then some acct
    else if n = "AWS::Region" then some region
    else if n = StackRefs.repository then some repo
    else if n = "WebAppRevision" then some rev
    else none

/-- Reference resolution for the standalone example image: the two pseudo
parameters and the Ref target nick receive concrete values. -/
def mystackImageEnv (acct region repo : String) : String → Option String :=
  fun n =>
    if n = "AWS::AccountId" then some acct
    else if n = "AWS::Region" then some region
    else if n = MyStack.repository then some repo
    else none

/-- Reference resolution assigning the WebAppRevision parameter alone. -/
def revisionEnv (rev : String) : String → Option String :=
  fun n => if n = "WebAppRevision" then some rev else none

/-- The Image property of the first container definition of a task
definition resource. -/
def firstContainerImage (r : Resource) : Option Val :=
  match r.prop "ContainerDefinitions" with
  | some (Val.list (Val.obj fs :: _)) =>
    (fs.find? (fun e => e.1 == "Image")).map (fun e => e.2)
  | _ => none

/-- C1: the application stack adds exactly one condition to the template,
named Deploy, with expression Not(Equals(Ref WebAppRevision, "")); the
WebAppRevision parameter defaults to the empty string, and for every value
of the parameter the condition evaluates to true exactly when the value is
non-empty. -/
theorem C1_single_deploy_condition :
    stackTemplate.conditions =
      [("Deploy", .isNot (.isEqual (.ref "WebAppRevision") (.str "")))]
    ∧ (stackTemplate.parameters.find?
        (fun p => p.name == "WebAppRevision")).map (fun p => p.default)
      = some (some "")
    ∧ ∀ rev : String,
        (evalCond stackTemplate.mappings (revisionEnv rev)
            (.isNot (.isEqual (.ref "WebAppRevision") (.str ""))) = some true
          ↔ rev ≠ "") := by
  refine ⟨rfl, by decide, fun rev => ?_⟩
  simp [evalCond, evalVal, revisionEnv]

/-- C2: the Image of the web worker container of the application stack
task definition is the empty-separator Join of the account id, ".dkr.ecr.",
the region, ".amazonaws.com/", the repository reference, ":" and the
application revision, in that order, and under any concrete resolution it
evaluates to exactly that concatenation; the standalone example builds its
Image the same way with its fixed revision latest. -/
theorem C2_image_concatenation :
    firstContainerImage Application.web_task_definition
      = some Application.image
    ∧ (∀ acct region repo rev : String,
        evalVal stackTemplate.mappings (imageEnv acct region repo rev)
            Application.image
          = some (acct ++ ".dkr.ecr." ++ region ++ ".amazonaws.com/"
              ++ repo ++ ":" ++ rev))
    ∧ firstContainerImage MyStack.web_task_definition = some MyStack.image
    ∧ (∀ acct region repo : String,
        evalVal mystackTemplate.mappings (mystackImageEnv acct region repo)
            MyStack.image
          = some (acct ++ ".dkr.ecr." ++ region ++ ".amazonaws.com/"
              ++ repo ++ ":" ++ "latest")) := by
  refine ⟨rfl, fun acct region repo rev => ?_, rfl, fun acct region repo => ?_⟩
  · simp [Application.image, Application.application_revision, imageEnv,
      StackRefs.repository, evalVal, evalVals,
      String.intercalate, String.intercalate.go]
  · simp [MyStack.image, MyStack.repository, MyStack.app_revision,
      mystackImageEnv, evalVal, evalVals,
      String.intercalate, String.intercalate.go]

/-- C3: the cluster stack declares the static ECSRegionMap mapping covering
exactly nine regions, the ImageId of the container launch configuration is
exactly the FindInMap lookup of the deployment region under the AMI key of
that mapping, and for each of the nine regions that lookup evaluates to the
AMI the mapping lists. -/
theorem C3_region_map_image_id :
    ClusterStack.ECSRegionMap.map (fun e => e.1) =
      ["us-east-1", "us-east-2", "us-west-1", "us-west-2", "eu-west-1",
       "eu-central-1", "ap-northeast-1", "ap-southeast-1", "ap-southeast-2"]
    ∧ ClusterStack.ECSRegionMap.length = 9
    ∧ stackTemplate.mappings = [("ECSRegionMap", ClusterStack.ECSRegionMap)]
    ∧ (stackTemplate.resource? "ContainerLaunchConfiguration").map
        (fun r => r.prop "ImageId")
      = some (some (.findInMap "ECSRegionMap" (.ref "AWS::Region") "AMI"))
    ∧ (ClusterStack.ECSRegionMap.all (fun e =>
        evalVal stackTemplate.mappings
            (fun n => if n = "AWS::Region" then some e.1 else none)
            (.findInMap "ECSRegionMap" (.ref "AWS::Region") "AMI")
          == (e.2.find? (fun c => c.1 == "AMI")).map (fun c => c.2))) = true
      := by
  refine ⟨rfl, rfl, rfl, rfl, by decide⟩

/-- C4: each script of the repository prints exactly the serialization of
the template it built: the standalone example emits its one document
through its final print statement, the stack entry point emits the shared
template document, and each emitted document lists precisely the resources
accumulated in its template. -/
theorem C4_scripts_print_serialized_template :
    mystackScriptOutput = [mystackTemplate.toDocument]
    ∧ stackScriptOutput = [stackTemplate.toDocument]
    ∧ documentResourceTitles mystackTemplate.toDocument
      = mystackTemplate.resources.map (fun r => r.title)
    ∧ documentResourceTitles stackTemplate.toDocument
      = stackTemplate.resources.map (fun r => r.title) := by
  refine ⟨rfl, rfl, rfl, by decide⟩

/-- C5 counterexample: the repository constructs two template accumulator
objects rather than one: the WebTask of the standalone example and the
Cluster of the stack package are attachments to different template objects,
so the statement that all declarations go to one and the same template
decides to false. -/
theorem C5_counterexample_two_accumulators :
    (attachments.contains ("WebTask", TemplateId.mystackT)) = true
    ∧ (attachments.contains ("Cluster", TemplateId.stackT)) = true
    ∧ (TemplateId.mystackT == TemplateId.stackT) = false
    ∧ decide (∀ p ∈ attachments, ∀ q ∈ attachments, p.2 = q.2) = false := by
  refine ⟨by decide, by decide, by decide, by decide⟩

/-- C5 amended: each template-building unit has exactly one template
accumulator: every parameter, mapping, condition, resource and output of
the stack package is attached to the one shared stack template, every
declaration of the standalone example is attached to its own template, and
these two objects together receive every declaration of the repository. -/
theorem C5_one_accumulator_per_unit :
    (stackAttachments.all (fun p => p.2 == TemplateId.stackT)) = true
    ∧ (mystackAttachments.all (fun p => p.2 == TemplateId.mystackT)) = true
    ∧ attachments = mystackAttachments ++ stackAttachments := by
  refine ⟨by decide, by decide, rfl⟩

/-- C6: the checked constructors of the templating model report an error
exactly when a required resource property is absent (Name or Image of a
container definition, ContainerDefinitions of a task definition), at
construction time and hence before any template is serialized; every
construction the source files actually perform supplies the required
properties and succeeds, so the scripts reach their serialization step with
no other error handling of their own. -/
theorem C6_required_properties_raise :
    (∀ p : Tropo.ContainerDefinitionProps,
        Tropo.succeeded (Tropo.mkContainerDefinition p)
          = (p.name.isSome && p.image.isSome))
    ∧ (∀ (ttl : String) (cond : Option String) (cds : Option (List Val)),
        Tropo.succeeded (Tropo.mkTaskDefinition ttl cond cds) = cds.isSome)
    ∧ applicationContainerBuild = .ok Application.web_worker_container
    ∧ applicationTaskBuild = .ok Application.web_task_definition
    ∧ mystackContainerBuild = .ok MyStack.web_worker_container
    ∧ mystackTaskBuild = .ok MyStack.web_task_definition := by
  refine ⟨fun p => ?_, fun ttl cond cds => ?_, rfl, rfl, rfl, rfl⟩
  · obtain ⟨n, i, c, m, e, pm, lc, env⟩ := p
    cases n <;> cases i <;> rfl
  · cases cds <;> rfl

/-- C7: the only interaction between the application stack and the cluster
stack is static reference: the application module appends its declarations
after the cluster declarations without altering them, every cluster name it
refers to is one of the five imported objects (cluster, target group,
listener, autoscaling group name, web worker port), it does embed a
reference to each of the five (Ref, DependsOn, title), and the cluster
module refers to no name the application module declares. -/
theorem C7_static_import_interface :
    stackTemplate.resources = ClusterStack.resources ++ Application.resources
    ∧ ((applicationReferencedNames.filter
          (fun n => clusterDeclaredNames.contains n)).all
          (fun n => applicationClusterImports.contains n)) = true
    ∧ (applicationClusterImports.all
          (fun n => applicationReferencedNames.contains n)) = true
    ∧ (clusterReferencedNames.all
          (fun n => !(applicationDeclaredNames.contains n))) = true
    ∧ Application.application_service.dependsOn
      = [ClusterStack.autoscaling_group_name,
         ClusterStack.application_listener.title]
    ∧ Application.application_service.prop "Cluster"
      = some (.ref ClusterStack.cluster.title) := by
  refine ⟨rfl, by decide, by decide, by decide, rfl, rfl⟩

/-- C8: the document the standalone example prints references names its own
template never defines: the task definition carries the Condition string
foo while the template declares no condition at all, and its Image contains
Ref of the plain string nick, which matches no parameter and no resource of
the template; the dangling condition even leaves the instantiation of the
resource unresolvable. -/
theorem C8_dangling_names :
    mystackTemplate.resource? "WebTask" = some MyStack.web_task_definition
    ∧ MyStack.web_task_definition.condition = some "foo"
    ∧ mystackTemplate.conditions = []
    ∧ mystackTemplate.conditionExpr? "foo" = none
    ∧ valRefNames MyStack.image = ["AWS::AccountId", "AWS::Region", "nick"]
    ∧ mystackTemplate.parameters.map (fun p => p.name) = []
    ∧ mystackTemplate.resources.map (fun r => r.title) = ["WebTask"]
    ∧ ((mystackTemplate.resources.map (fun r => r.title)).contains "nick")
      = false
    ∧ resourceInstantiated mystackTemplate (fun _ => none)
        MyStack.web_task_definition = none := by
  refine ⟨rfl, rfl, rfl, rfl, by decide, rfl, by decide, by decide, rfl⟩

/-- C9: the WebTask task definition and the ApplicationService of the
application stack carry the same Deploy condition, the service references
the task definition through Ref, and for every value of the WebAppRevision
parameter both resources are instantiated exactly when the revision is
non-empty; with the empty default revision neither exists. -/
theorem C9_task_and_service_share_condition :
    Application.web_task_definition.condition = some "Deploy"
    ∧ Application.application_service.condition = some "Deploy"
    ∧ Application.application_service.prop "TaskDefinition"
      = some (.ref Application.web_task_definition.title)
    ∧ (∀ rev : String,
        resourceInstantiated stackTemplate (revisionEnv rev)
            Application.web_task_definition = some (!(rev == ""))
        ∧ resourceInstantiated stackTemplate (revisionEnv rev)
            Application.application_service = some (!(rev == "")))
    ∧ resourceInstantiated stackTemplate (revisionEnv "")
        Application.web_task_definition = some false
    ∧ resourceInstantiated stackTemplate (revisionEnv "")
        Application.application_service = some false := by
  refine ⟨rfl, rfl, rfl, fun rev => ⟨?_, ?_⟩, by decide, by decide⟩
  all_goals
    simp [resourceInstantiated, Template.conditionExpr?, stackTemplate,
      Application.conditions, Application.deploy_condition,
      Application.web_task_definition, Application.application_service,
      evalCond, evalVal, revisionEnv, Application.application_revision]

/-- C10: in the autoscaling group of the cluster stack, MinSize and
DesiredCapacity are both the very same reference to the DesiredScale
parameter while MaxSize references the MaxScale parameter, so under every
parameter resolution the minimum size evaluates to exactly the desired
capacity. -/
theorem C10_min_size_equals_desired_capacity :
    ClusterStack.autoscaling_group.prop "MinSize"
      = some (.ref "DesiredScale")
    ∧ ClusterStack.autoscaling_group.prop "DesiredCapacity"
      = some (.ref "DesiredScale")
    ∧ ClusterStack.autoscaling_group.prop "MaxSize" = some (.ref "MaxScale")
    ∧ (stackTemplate.resource? "AutoScalingGroup").map
        (fun r => r.prop "MinSize")
      = (stackTemplate.resource? "AutoScalingGroup").map
        (fun r => r.prop "DesiredCapacity")
    ∧ ∀ ρ : String → Option String,
        (ClusterStack.autoscaling_group.prop "MinSize").map
            (evalVal stackTemplate.mappings ρ)
          = (ClusterStack.autoscaling_group.prop "DesiredCapacity").map
            (evalVal stackTemplate.mappings ρ) := by
  refine ⟨rfl, rfl, rfl, rfl, fun ρ => rfl⟩
